import Mathlib

/-!
Verification development for the merchant-form-filler cloud function
(src/main.py).  The Python source is shallowly embedded below:

* dynamic scalar values (string / bool / number) become the `Value` type;
  JSON request bodies become the `Json` type;
* Python dicts used as finite maps become association lists
  (`List (String × _)`) with first-match lookup, matching the unique-key
  invariant of Python dicts; the output form-data dict is embedded as the
  function `FormData := String → Option Value` updated by `setField`;
* the pure field-mapping block of `fill_pdf_form` (lines 255-302) becomes
  `renderedFieldMap`; the checkbox pass, truncation rules and the final
  signature-date write are translated statement by statement;
* `add_signature_to_pdf`'s page-merging logic becomes
  `addSignatureToPdfPages`; its overlay geometry (floating point in the
  source) is embedded over exact rationals;
* the HTTP handler's control flow (statuses and scratch-file lifetime)
  becomes `handleRequest`, with the external collaborators (filesystem,
  fill engine, base64 decoder) modelled explicitly.
-/

/-- A dynamic scalar value as it arrives from the JSON field map:
Python `str`, `bool` or `int`.  (Numbers are embedded as integers;
nothing in the verified code distinguishes further.) -/
inductive Value where
  | str : String → Value
  | bool : Bool → Value
  | int : Int → Value
deriving DecidableEq

/-- Decimal digits of a natural number, most significant first.
`fuel` bounds the recursion; `fuel = n + 1` is always enough. -/
def natDecimal : Nat → Nat → List Char
  | 0, _ => []
  | fuel + 1, n =>
    if n < 10 then [Char.ofNat (48 + n)]
    else natDecimal fuel (n / 10) ++ [Char.ofNat (48 + n % 10)]

/-- Embedding of Python `str` on integers: usual decimal form with a
leading minus sign for negatives. -/
def intDecimal : Int → String
  | Int.ofNat n => String.mk (natDecimal (n + 1) n)
  | Int.negSucc n => String.mk ('-' :: natDecimal (n + 2) (n + 1))

/-- Embedding of Python `str(value)` for the three scalar shapes
(`str(True) = "True"`, `str(False) = "False"`, decimal for ints). -/
def pyStr : Value → String
  | Value.str s => s
  | Value.bool true => "True"
  | Value.bool false => "False"
  | Value.int i => intDecimal i

/-- ASCII lower-casing of one character (embedding of `str.lower` on the
character range the program ever compares against). -/
def asciiToLower (c : Char) : Char :=
  if 'A' ≤ c ∧ c ≤ 'Z' then Char.ofNat (c.toNat + 32) else c

/-- Embedding of Python `str.lower()`. -/
def pyLower (s : String) : String :=
  String.mk (s.data.map asciiToLower)

/-- Embedding of Python `s[:n]` on strings (prefix of at most `n`
code points). -/
def pyTake (s : String) (n : Nat) : String :=
  String.mk (s.data.take n)

/-- Embedding of Python truthiness on scalar values: empty string,
`False` and `0` are falsy, everything else truthy. -/
def pyTruthy : Value → Bool
  | Value.str s => !(s == "")
  | Value.bool b => b
  | Value.int i => !(i == 0)

/-- The target of one entry of the field-mapping dict: a single template
field name for text fields, or a Yes/No pair for checkbox fields. -/
inductive MapTarget where
  | single : String → MapTarget
  | pair : String → String → MapTarget
deriving DecidableEq

/-- List `CHECKBOX_FIELDS` from src/main.py (lines 60-68). -/
def CHECKBOX_FIELDS : List String :=
  [ "bankAccountOpen90Days",
    "isBusinessForSale",
    "filedBankruptcy",
    "hasTaxLiens",
    "isUSCitizenPermanentResident",
    "ownOrRent",
    "agreeToTerms" ]

/-- Dict `FIELD_MAPPING` from src/main.py (lines 71-123), entry for entry. -/
def FIELD_MAPPING : List (String × MapTarget) :=
  [ ("legalBusinessName", MapTarget.single "Text_1"),
    ("dbaName", MapTarget.single "Text_2"),
    ("physicalAddress", MapTarget.single "Text_3"),
    ("city", MapTarget.single "Text_4"),
    ("state", MapTarget.single "Text_5"),
    ("zipCode", MapTarget.single "Text_6"),
    ("businessPhone", MapTarget.single "Text_7"),
    ("businessFax", MapTarget.single "Text_8"),
    ("businessEmail", MapTarget.single "Text_9"),
    ("estimatedMonthlySales", MapTarget.single "Text_10"),
    ("estimatedMonthlyCCSales", MapTarget.single "Text_11"),
    ("businessStartDate", MapTarget.single "Text_12"),
    ("bankingInstitution", MapTarget.single "Text_13"),
    ("timeRemainingOnLeaseMortgage", MapTarget.single "Text_14"),
    ("businessType", MapTarget.single "Text_15"),
    ("landlordAgentName", MapTarget.single "Text_16"),
    ("landlordAgentPhone", MapTarget.single "Text_17"),
    ("numberOfLocations", MapTarget.single "Text_18"),
    ("federalTaxId", MapTarget.single "Text_19"),
    ("amountRequested", MapTarget.single "Text_20"),
    ("intendedUseOfMoney", MapTarget.single "Text_21"),
    ("typeOfEntity", MapTarget.single "Text_22"),
    ("authorizedSignerName", MapTarget.single "Text_23"),
    ("authorizedSignerTitle", MapTarget.single "Text_40"),
    ("ownershipPercentage", MapTarget.single "Text_25"),
    ("score", MapTarget.single "Text_26"),
    ("principalOwnerName", MapTarget.single "Text_27"),
    ("ssn", MapTarget.single "Text_28"),
    ("dob", MapTarget.single "Text_29"),
    ("homeAddress", MapTarget.single "Text_30"),
    ("homeCity", MapTarget.single "Text_31"),
    ("homeState", MapTarget.single "Text_32"),
    ("homeZipCode", MapTarget.single "Text_33"),
    ("homePhone", MapTarget.single "Text_34"),
    ("mobilePhone", MapTarget.single "Text_35"),
    ("timeAtHomeAddress", MapTarget.single "Text_36"),
    ("timeAtPreviousHomeAddress", MapTarget.single "Text_37"),
    ("estimatedAnnualIncome", MapTarget.single "Text_38"),
    ("signatureDate", MapTarget.single "Text_39"),
    ("bankAccountOpen90Days", MapTarget.pair "Checkbox_1" "Checkbox_2"),
    ("isBusinessForSale", MapTarget.pair "Checkbox_3" "Checkbox_4"),
    ("filedBankruptcy", MapTarget.pair "Checkbox_5" "Checkbox_6"),
    ("hasTaxLiens", MapTarget.pair "Checkbox_7" "Checkbox_8"),
    ("isUSCitizenPermanentResident", MapTarget.pair "Checkbox_9" "Checkbox_10"),
    ("ownOrRent", MapTarget.pair "Checkbox_11" "Checkbox_12"),
    ("agreeToTerms", MapTarget.pair "Checkbox_13" "Checkbox_14") ]

/-- Python `FIELD_MAPPING.get(name)` / `FIELD_MAPPING[name]` /
`name in FIELD_MAPPING` all reduce to this dict lookup. -/
def fieldMappingGet (name : String) : Option MapTarget :=
  (FIELD_MAPPING.find? (fun kv => kv.1 = name)).map Prod.snd

/-- Lookup of a key in the submitted form dict (`form_fields[k]`,
`k in form_fields`).  Python dicts have unique keys; the embedding takes
the first matching entry. -/
def dictFindV (fields : List (String × Value)) (k : String) : Option Value :=
  (fields.find? (fun kv => kv.1 = k)).map Prod.snd

/-- Embedding of `form_fields.get(k, dflt)` (src/main.py lines 219-221). -/
def dictGetD (fields : List (String × Value)) (k : String) (dflt : Value) : Value :=
  (dictFindV fields k).getD dflt

/-- Line 221, `signature_date = form_fields.get("signatureDate", datetime.now()...)`;
`today` stands for the formatted current date. -/
def resolveSignatureDate (fields : List (String × Value)) (today : String) : Value :=
  dictGetD fields "signatureDate" (Value.str today)

/-- Line 220, `signature_hash = form_fields.get("signatureDataHash", "N/A")`. -/
def resolveSignatureHash (fields : List (String × Value)) : Value :=
  dictGetD fields "signatureDataHash" (Value.str "N/A")

/-- The output dict `pdf_form_data`, embedded as a partial map from
template field names to values. -/
abbrev FormData := String → Option Value

/-- The empty dict `pdf_form_data = {}` (line 255). -/
def emptyFormData : FormData := fun _ => none

/-- Assignment `pdf_form_data[k] = v`: dict update. -/
def setField (d : FormData) (k : String) (v : Value) : FormData :=
  fun q => if q = k then some v else d q

/-- The truncation applied to one mapped text field (src/main.py lines
267-278): `businessEmail` is cut at 30 via `str(value)`, `businessType`
at 35 via `str(value)`, and any other *string* value at 40. -/
def truncateForField (name : String) (v : Value) : Value :=
  if name = "businessEmail" ∧ (pyStr v).data.length > 30 then
    Value.str (pyTake (pyStr v) 30)
  else if name = "businessType" ∧ (pyStr v).data.length > 35 then
    Value.str (pyTake (pyStr v) 35)
  else
    match v with
    | Value.str s => if s.data.length > 40 then Value.str (pyTake s 40) else v
    | _ => v

/-- One iteration of the text-field loop (lines 258-280) on entry
`(name, v)`: skip the signature-metadata keys and the checkbox names,
otherwise map the name through `FIELD_MAPPING` and store the (possibly
truncated) value.  A pair-valued target cannot occur here: every
pair-mapped name is in `CHECKBOX_FIELDS` and was skipped. -/
def textFieldStep (d : FormData) (name : String) (v : Value) : FormData :=
  if name = "signatureImageBase64" ∨ name = "signatureDataHash" ∨ name ∈ CHECKBOX_FIELDS then
    d
  else
    match fieldMappingGet name with
    | some (MapTarget.single tgt) => setField d tgt (truncateForField name v)
    | _ => d

/-- The text-field loop `for field_name, value in form_fields.items()`
(lines 258-280). -/
def processTextFields (fields : List (String × Value)) (d : FormData) : FormData :=
  fields.foldl (fun d kv => textFieldStep d kv.1 kv.2) d

/-- The truthy string forms recognised by the checkbox conversion
(line 293). -/
def TRUTHY_STRINGS : List String := ["yes", "true", "1", "on", "own"]

/-- The boolean interpretation of a checkbox value (lines 289-293):
booleans are used directly, anything else goes through
`str(value).lower()` membership. -/
def isYesValue : Value → Bool
  | Value.bool b => b
  | v => decide (pyLower (pyStr v) ∈ TRUTHY_STRINGS)

/-- One iteration of the checkbox loop (lines 283-298) for logical name
`cb`: when present in the input, write "Yes"/"Off" into the mapped
Yes/No pair.  (For every name in `CHECKBOX_FIELDS` the mapping target is
a pair; other shapes fall through exactly like the code's
`if field_pair:` guard.) -/
def checkboxStep (fields : List (String × Value)) (d : FormData) (cb : String) : FormData :=
  match dictFindV fields cb with
  | none => d
  | some v =>
    match fieldMappingGet cb with
    | some (MapTarget.pair yesField noField) =>
      setField
        (setField d yesField (Value.str (if isYesValue v then "Yes" else "Off")))
        noField (Value.str (if isYesValue v then "Off" else "Yes"))
    | _ => d

/-- The checkbox loop `for checkbox_field in CHECKBOX_FIELDS` (lines
283-298). -/
def processCheckboxFields (fields : List (String × Value)) (d : FormData) : FormData :=
  CHECKBOX_FIELDS.foldl (checkboxStep fields) d

/-- The complete field-mapping phase of `fill_pdf_form` (lines 255-302):
text pass, checkbox pass, then the unconditional signature-date write
`pdf_form_data[FIELD_MAPPING["signatureDate"]] = signature_date`
(guarded by `"signatureDate" in FIELD_MAPPING`, which holds). -/
def renderedFieldMap (fields : List (String × Value)) (today : String) : FormData :=
  let d0 := processTextFields fields emptyFormData
  let d1 := processCheckboxFields fields d0
  match fieldMappingGet "signatureDate" with
  | some (MapTarget.single tgt) => setField d1 tgt (resolveSignatureDate fields today)
  | _ => d1

/-- The `if signature_date: text += f"Signed: ..."` step of the Text_41
assembly (lines 316-318), starting from the empty string. -/
def signedClause (sigDate : Value) : String :=
  if pyTruthy sigDate then "Signed: " ++ pyStr sigDate else ""

/-- The `if signature_hash: ... text += f"Hash: ..."` step (lines
319-322), with the separator added only when text is already non-empty. -/
def withHashClause (sigHash : Value) (text : String) : String :=
  if pyTruthy sigHash then
    (if text ≠ "" then text ++ " | " else text) ++ ("Hash: " ++ pyStr sigHash)
  else text

/-- The composite annotation for Text_41 (lines 314-324): `none` when the
guard `if signature_date or signature_hash:` is falsy (the field is then
left unset), otherwise the assembled text. -/
def annotationText (sigDate sigHash : Value) : Option String :=
  if pyTruthy sigDate || pyTruthy sigHash then
    some (withHashClause sigHash (signedClause sigDate))
  else none

example : renderedFieldMap [("city", Value.str "Springfield")] "2026-10-12" "Text_4"
    = some (Value.str "Springfield") := by decide

example : renderedFieldMap [("ownOrRent", Value.str "OWN")] "2026-10-12" "Checkbox_11"
    = some (Value.str "Yes") := by decide

example : renderedFieldMap [("ownOrRent", Value.str "OWN")] "2026-10-12" "Checkbox_12"
    = some (Value.str "Off") := by decide

example : renderedFieldMap [] "2026-10-12" "Text_39" = some (Value.str "2026-10-12") := by
  decide

example : pyStr (Value.int 1000000000000000000000000000000)
    = "1000000000000000000000000000000" := by decide

example : renderedFieldMap [("businessEmail", Value.int 1000000000000000000000000000000)]
    "d" "Text_9" = some (Value.str "100000000000000000000000000000") := by decide

/-! ### Lemmas about the field-mapping pass -/

lemma setField_self (d : FormData) (k : String) (v : Value) : setField d k v k = some v := by
  simp [setField]

lemma setField_ne (d : FormData) (k : String) (v : Value) {q : String} (h : q ≠ k) :
    setField d k v q = d q := by
  simp [setField, h]

/-- The template field, if any, that the text-field loop writes for a
given logical input name (derived view of `textFieldStep`). -/
def textTarget (name : String) : Option String :=
  if name = "signatureImageBase64" ∨ name = "signatureDataHash" ∨ name ∈ CHECKBOX_FIELDS then
    none
  else
    match fieldMappingGet name with
    | some (MapTarget.single tgt) => some tgt
    | _ => none

lemma textFieldStep_q (d : FormData) (name : String) (v : Value) (q : String) :
    textFieldStep d name v q
      = if textTarget name = some q then some (truncateForField name v) else d q := by
  unfold textFieldStep textTarget
  by_cases hskip :
      name = "signatureImageBase64" ∨ name = "signatureDataHash" ∨ name ∈ CHECKBOX_FIELDS
  · simp [hskip]
  · simp only [hskip, if_false]
    cases hm : fieldMappingGet name with
    | none => simp
    | some tgt =>
      cases tgt with
      | single t =>
        show setField d t (truncateForField name v) q
            = if some t = some q then some (truncateForField name v) else d q
        by_cases hq : q = t
        · subst hq; simp [setField_self]
        · rw [setField_ne _ _ _ hq, if_neg]
          intro hcon
          exact hq (by injection hcon with h; exact h.symm)
      | pair a b =>
        show d q = if (none : Option String) = some q then some (truncateForField name v) else d q
        simp

lemma textFieldStep_skip (d : FormData) (name : String) (v : Value)
    (h : textTarget name = none) : textFieldStep d name v = d := by
  funext q
  rw [textFieldStep_q, h]
  simp

lemma processTextFields_cons (kv : String × Value) (rest : List (String × Value))
    (d : FormData) :
    processTextFields (kv :: rest) d = processTextFields rest (textFieldStep d kv.1 kv.2) :=
  rfl

lemma processTextFields_q_notarget (fields : List (String × Value)) (d : FormData)
    (q : String) (h : ∀ kv ∈ fields, textTarget kv.1 ≠ some q) :
    processTextFields fields d q = d q := by
  induction fields generalizing d with
  | nil => rfl
  | cons kv rest ih =>
    rw [processTextFields_cons, ih _ (fun kv' h' => h kv' (List.mem_cons_of_mem _ h')),
        textFieldStep_q, if_neg (h kv (List.mem_cons_self _ _))]

lemma processTextFields_q_found (fields : List (String × Value)) (d : FormData)
    (q name : String) (v : Value)
    (hnd : (fields.map Prod.fst).Nodup)
    (hmem : (name, v) ∈ fields)
    (ht : textTarget name = some q)
    (huniq : ∀ n, textTarget n = some q → n = name) :
    processTextFields fields d q = some (truncateForField name v) := by
  induction fields generalizing d with
  | nil => cases hmem
  | cons kv rest ih =>
    rw [List.map_cons, List.nodup_cons] at hnd
    rcases List.mem_cons.mp hmem with heq | hmem'
    · subst heq
      rw [processTextFields_cons, processTextFields_q_notarget]
      · rw [textFieldStep_q, ht, if_pos rfl]
      · intro kv' hkv' hcon
        have hmap : kv'.1 ∈ rest.map Prod.fst := List.mem_map_of_mem Prod.fst hkv'
        rw [huniq kv'.1 hcon] at hmap
        exact hnd.1 hmap
    · rw [processTextFields_cons]
      exact ih _ hnd.2 hmem'

lemma textTarget_mem {n t : String} (h : textTarget n = some t) :
    (n, MapTarget.single t) ∈ FIELD_MAPPING := by
  unfold textTarget at h
  split at h
  · cases h
  · split at h
    · next tgt heq =>
      injection h with h'
      rw [← h']
      unfold fieldMappingGet at heq
      obtain ⟨kv, hfind, hsnd⟩ := Option.map_eq_some'.mp heq
      have hkey : kv.1 = n := by simpa using List.find?_some hfind
      have hmem := List.mem_of_find?_eq_some hfind
      obtain ⟨k1, k2⟩ := kv
      simp only at hkey hsnd
      rw [hkey, hsnd] at hmem
      exact hmem
    · cases h

lemma FIELD_MAPPING_snd_nodup : (FIELD_MAPPING.map Prod.snd).Nodup := by decide

lemma FIELD_MAPPING_fst_nodup : (FIELD_MAPPING.map Prod.fst).Nodup := by decide

/-- Distinct logical names are mapped to distinct targets: the right-hand
sides of `FIELD_MAPPING` are pairwise different. -/
lemma mapped_name_unique {n n' : String} {t : MapTarget}
    (h : (n, t) ∈ FIELD_MAPPING) (h' : (n', t) ∈ FIELD_MAPPING) : n = n' := by
  have := List.inj_on_of_nodup_map FIELD_MAPPING_snd_nodup h h' (by rfl)
  injection this with h1 h2

/-- One logical name has only one target in `FIELD_MAPPING`. -/
lemma mapped_target_unique {n : String} {t t' : MapTarget}
    (h : (n, t) ∈ FIELD_MAPPING) (h' : (n, t') ∈ FIELD_MAPPING) : t = t' := by
  have := List.inj_on_of_nodup_map FIELD_MAPPING_fst_nodup h h' (by rfl)
  injection this with h1 h2

/-- The 14 template checkbox names (right-hand sides of the pair
entries of `FIELD_MAPPING`). -/
def CHECKBOX_TARGETS : List String :=
  [ "Checkbox_1", "Checkbox_2", "Checkbox_3", "Checkbox_4", "Checkbox_5", "Checkbox_6",
    "Checkbox_7", "Checkbox_8", "Checkbox_9", "Checkbox_10", "Checkbox_11", "Checkbox_12",
    "Checkbox_13", "Checkbox_14" ]

lemma single_target_not_checkbox {n t : String}
    (h : (n, MapTarget.single t) ∈ FIELD_MAPPING) : t ∉ CHECKBOX_TARGETS := by
  have hall : ∀ p ∈ FIELD_MAPPING,
      (match p.2 with
       | MapTarget.single t' => decide (t' ∉ CHECKBOX_TARGETS)
       | _ => true) = true := by decide
  exact of_decide_eq_true (hall (n, MapTarget.single t) h)

lemma fmg_of_mem {n : String} {t : MapTarget} (h : (n, t) ∈ FIELD_MAPPING) :
    fieldMappingGet n = some t := by
  unfold fieldMappingGet
  cases hfind : FIELD_MAPPING.find? (fun kv => kv.1 = n) with
  | none =>
    exfalso
    have := List.find?_eq_none.mp hfind (n, t) h
    simp at this
  | some kv =>
    have hkey : kv.1 = n := by simpa using List.find?_some hfind
    have hmem := List.mem_of_find?_eq_some hfind
    have hkv : kv = (n, kv.2) := by
      obtain ⟨k1, k2⟩ := kv
      simp only at hkey
      rw [hkey]
    rw [hkv] at hmem
    rw [Option.map_eq_some']
    exact ⟨kv, rfl, (mapped_target_unique hmem h ▸ by rw [hkv])⟩

lemma checkboxStep_q_ne {fields : List (String × Value)} {d : FormData} {cb q : String}
    (h : ∀ a b, fieldMappingGet cb = some (MapTarget.pair a b) → q ≠ a ∧ q ≠ b) :
    checkboxStep fields d cb q = d q := by
  unfold checkboxStep
  cases hf : dictFindV fields cb with
  | none => rfl
  | some v =>
    cases hm : fieldMappingGet cb with
    | none => rfl
    | some tgt =>
      cases tgt with
      | single t => rfl
      | pair a b =>
        obtain ⟨ha, hb⟩ := h a b hm
        show setField (setField d a _) b _ q = d q
        rw [setField_ne _ _ _ hb, setField_ne _ _ _ ha]

lemma checkboxStep_hit_yes {fields : List (String × Value)} (d : FormData)
    {cb : String} {v : Value} {a b : String}
    (hf : dictFindV fields cb = some v)
    (hm : fieldMappingGet cb = some (MapTarget.pair a b))
    (hab : a ≠ b) :
    checkboxStep fields d cb a = some (Value.str (if isYesValue v then "Yes" else "Off")) := by
  unfold checkboxStep
  rw [hf, hm]
  show setField (setField d a _) b _ a = _
  rw [setField_ne _ _ _ hab, setField_self]

lemma checkboxStep_hit_no {fields : List (String × Value)} (d : FormData)
    {cb : String} {v : Value} {a b : String}
    (hf : dictFindV fields cb = some v)
    (hm : fieldMappingGet cb = some (MapTarget.pair a b)) :
    checkboxStep fields d cb b = some (Value.str (if isYesValue v then "Off" else "Yes")) := by
  unfold checkboxStep
  rw [hf, hm]
  show setField (setField d a _) b _ b = _
  rw [setField_self]

lemma processCheckboxFields_eq (fields : List (String × Value)) (d : FormData) :
    processCheckboxFields fields d =
      checkboxStep fields (checkboxStep fields (checkboxStep fields (checkboxStep fields
        (checkboxStep fields (checkboxStep fields (checkboxStep fields d
          "bankAccountOpen90Days") "isBusinessForSale") "filedBankruptcy") "hasTaxLiens")
          "isUSCitizenPermanentResident") "ownOrRent") "agreeToTerms" := rfl

lemma fmg_bank :
    fieldMappingGet "bankAccountOpen90Days" = some (MapTarget.pair "Checkbox_1" "Checkbox_2") := by
  decide

lemma fmg_sale :
    fieldMappingGet "isBusinessForSale" = some (MapTarget.pair "Checkbox_3" "Checkbox_4") := by
  decide

lemma fmg_bankruptcy :
    fieldMappingGet "filedBankruptcy" = some (MapTarget.pair "Checkbox_5" "Checkbox_6") := by
  decide

lemma fmg_liens :
    fieldMappingGet "hasTaxLiens" = some (MapTarget.pair "Checkbox_7" "Checkbox_8") := by
  decide

lemma fmg_citizen :
    fieldMappingGet "isUSCitizenPermanentResident"
      = some (MapTarget.pair "Checkbox_9" "Checkbox_10") := by
  decide

lemma fmg_own :
    fieldMappingGet "ownOrRent" = some (MapTarget.pair "Checkbox_11" "Checkbox_12") := by
  decide

lemma fmg_agree :
    fieldMappingGet "agreeToTerms" = some (MapTarget.pair "Checkbox_13" "Checkbox_14") := by
  decide

/-- Helper to discharge the side condition of `checkboxStep_q_ne` when the
checkbox name's pair is known. -/
lemma pair_ne_of {cb q a' b' : String}
    (hm' : fieldMappingGet cb = some (MapTarget.pair a' b'))
    (ha : q ≠ a') (hb : q ≠ b') :
    ∀ a b, fieldMappingGet cb = some (MapTarget.pair a b) → q ≠ a ∧ q ≠ b := by
  intro a b hm
  rw [hm'] at hm
  injection hm with h
  injection h with h1 h2
  subst h1; subst h2
  exact ⟨ha, hb⟩

lemma processCheckboxFields_q_ne (fields : List (String × Value)) (d : FormData)
    {q : String} (hq : q ∉ CHECKBOX_TARGETS) :
    processCheckboxFields fields d q = d q := by
  simp only [CHECKBOX_TARGETS, List.mem_cons, List.not_mem_nil, or_false, not_or] at hq
  obtain ⟨h1, h2, h3, h4, h5, h6, h7, h8, h9, h10, h11, h12, h13, h14⟩ := hq
  rw [processCheckboxFields_eq,
    checkboxStep_q_ne (pair_ne_of fmg_agree h13 h14),
    checkboxStep_q_ne (pair_ne_of fmg_own h11 h12),
    checkboxStep_q_ne (pair_ne_of fmg_citizen h9 h10),
    checkboxStep_q_ne (pair_ne_of fmg_liens h7 h8),
    checkboxStep_q_ne (pair_ne_of fmg_bankruptcy h5 h6),
    checkboxStep_q_ne (pair_ne_of fmg_sale h3 h4),
    checkboxStep_q_ne (pair_ne_of fmg_bank h1 h2)]

lemma renderedFieldMap_eq (fields : List (String × Value)) (today : String) :
    renderedFieldMap fields today =
      setField (processCheckboxFields fields (processTextFields fields emptyFormData))
        "Text_39" (resolveSignatureDate fields today) := rfl

/-- C1: for every checkbox logical field present in the input, the
yes-target receives "Yes" and the no-target "Off" exactly when the value
is boolean `true` or its lower-cased string form is one of
"yes"/"true"/"1"/"on"/"own"; for every other value the pair is
inverted.  Exactly one of the two targets is ever "Yes". -/
theorem c1_checkbox_pairing (fields : List (String × Value)) (today cb : String)
    (v : Value) (yf nf : String)
    (hcb : cb ∈ CHECKBOX_FIELDS)
    (hfind : dictFindV fields cb = some v)
    (hmap : fieldMappingGet cb = some (MapTarget.pair yf nf)) :
    (isYesValue v = true ↔ (v = Value.bool true ∨ pyLower (pyStr v) ∈ TRUTHY_STRINGS))
      ∧ renderedFieldMap fields today yf
          = some (Value.str (if isYesValue v then "Yes" else "Off"))
      ∧ renderedFieldMap fields today nf
          = some (Value.str (if isYesValue v then "Off" else "Yes")) := by
  refine ⟨?_, ?_⟩
  · cases v with
    | bool b => cases b <;> decide
    | str s => simp [isYesValue]
    | int i => simp [isYesValue]
  · fin_cases hcb
    · rw [fmg_bank] at hmap
      injection hmap with h; injection h with h1 h2; subst h1; subst h2
      constructor
      · rw [renderedFieldMap_eq, setField_ne _ _ _ (by decide), processCheckboxFields_eq,
          checkboxStep_q_ne (pair_ne_of fmg_agree (by decide) (by decide)),
          checkboxStep_q_ne (pair_ne_of fmg_own (by decide) (by decide)),
          checkboxStep_q_ne (pair_ne_of fmg_citizen (by decide) (by decide)),
          checkboxStep_q_ne (pair_ne_of fmg_liens (by decide) (by decide)),
          checkboxStep_q_ne (pair_ne_of fmg_bankruptcy (by decide) (by decide)),
          checkboxStep_q_ne (pair_ne_of fmg_sale (by decide) (by decide))]
        exact checkboxStep_hit_yes _ hfind fmg_bank (by decide)
      · rw [renderedFieldMap_eq, setField_ne _ _ _ (by decide), processCheckboxFields_eq,
          checkboxStep_q_ne (pair_ne_of fmg_agree (by decide) (by decide)),
          checkboxStep_q_ne (pair_ne_of fmg_own (by decide) (by decide)),
          checkboxStep_q_ne (pair_ne_of fmg_citizen (by decide) (by decide)),
          checkboxStep_q_ne (pair_ne_of fmg_liens (by decide) (by decide)),
          checkboxStep_q_ne (pair_ne_of fmg_bankruptcy (by decide) (by decide)),
          checkboxStep_q_ne (pair_ne_of fmg_sale (by decide) (by decide))]
        exact checkboxStep_hit_no _ hfind fmg_bank
    · rw [fmg_sale] at hmap
      injection hmap with h; injection h with h1 h2; subst h1; subst h2
      constructor
      · rw [renderedFieldMap_eq, setField_ne _ _ _ (by decide), processCheckboxFields_eq,
          checkboxStep_q_ne (pair_ne_of fmg_agree (by decide) (by decide)),
          checkboxStep_q_ne (pair_ne_of fmg_own (by decide) (by decide)),
          checkboxStep_q_ne (pair_ne_of fmg_citizen (by decide) (by decide)),
          checkboxStep_q_ne (pair_ne_of fmg_liens (by decide) (by decide)),
          checkboxStep_q_ne (pair_ne_of fmg_bankruptcy (by decide) (by decide))]
        exact checkboxStep_hit_yes _ hfind fmg_sale (by decide)
      · rw [renderedFieldMap_eq, setField_ne _ _ _ (by decide), processCheckboxFields_eq,
          checkboxStep_q_ne (pair_ne_of fmg_agree (by decide) (by decide)),
          checkboxStep_q_ne (pair_ne_of fmg_own (by decide) (by decide)),
          checkboxStep_q_ne (pair_ne_of fmg_citizen (by decide) (by decide)),
          checkboxStep_q_ne (pair_ne_of fmg_liens (by decide) (by decide)),
          checkboxStep_q_ne (pair_ne_of fmg_bankruptcy (by decide) (by decide))]
        exact checkboxStep_hit_no _ hfind fmg_sale
    · rw [fmg_bankruptcy] at hmap
      injection hmap with h; injection h with h1 h2; subst h1; subst h2
      constructor
      · rw [renderedFieldMap_eq, setField_ne _ _ _ (by decide), processCheckboxFields_eq,
          checkboxStep_q_ne (pair_ne_of fmg_agree (by decide) (by decide)),
          checkboxStep_q_ne (pair_ne_of fmg_own (by decide) (by decide)),
          checkboxStep_q_ne (pair_ne_of fmg_citizen (by decide) (by decide)),
          checkboxStep_q_ne (pair_ne_of fmg_liens (by decide) (by decide))]
        exact checkboxStep_hit_yes _ hfind fmg_bankruptcy (by decide)
      · rw [renderedFieldMap_eq, setField_ne _ _ _ (by decide), processCheckboxFields_eq,
          checkboxStep_q_ne (pair_ne_of fmg_agree (by decide) (by decide)),
          checkboxStep_q_ne (pair_ne_of fmg_own (by decide) (by decide)),
          checkboxStep_q_ne (pair_ne_of fmg_citizen (by decide) (by decide)),
          checkboxStep_q_ne (pair_ne_of fmg_liens (by decide) (by decide))]
        exact checkboxStep_hit_no _ hfind fmg_bankruptcy
    · rw [fmg_liens] at hmap
      injection hmap with h; injection h with h1 h2; subst h1; subst h2
      constructor
      · rw [renderedFieldMap_eq, setField_ne _ _ _ (by decide), processCheckboxFields_eq,
          checkboxStep_q_ne (pair_ne_of fmg_agree (by decide) (by decide)),
          checkboxStep_q_ne (pair_ne_of fmg_own (by decide) (by decide)),
          checkboxStep_q_ne (pair_ne_of fmg_citizen (by decide) (by decide))]
        exact checkboxStep_hit_yes _ hfind fmg_liens (by decide)
      · rw [renderedFieldMap_eq, setField_ne _ _ _ (by decide), processCheckboxFields_eq,
          checkboxStep_q_ne (pair_ne_of fmg_agree (by decide) (by decide)),
          checkboxStep_q_ne (pair_ne_of fmg_own (by decide) (by decide)),
          checkboxStep_q_ne (pair_ne_of fmg_citizen (by decide) (by decide))]
        exact checkboxStep_hit_no _ hfind fmg_liens
    · rw [fmg_citizen] at hmap
      injection hmap with h; injection h with h1 h2; subst h1; subst h2
      constructor
      · rw [renderedFieldMap_eq, setField_ne _ _ _ (by decide), processCheckboxFields_eq,
          checkboxStep_q_ne (pair_ne_of fmg_agree (by decide) (by decide)),
          checkboxStep_q_ne (pair_ne_of fmg_own (by decide) (by decide))]
        exact checkboxStep_hit_yes _ hfind fmg_citizen (by decide)
      · rw [renderedFieldMap_eq, setField_ne _ _ _ (by decide), processCheckboxFields_eq,
          checkboxStep_q_ne (pair_ne_of fmg_agree (by decide) (by decide)),
          checkboxStep_q_ne (pair_ne_of fmg_own (by decide) (by decide))]
        exact checkboxStep_hit_no _ hfind fmg_citizen
    · rw [fmg_own] at hmap
      injection hmap with h; injection h with h1 h2; subst h1; subst h2
      constructor
      · rw [renderedFieldMap_eq, setField_ne _ _ _ (by decide), processCheckboxFields_eq,
          checkboxStep_q_ne (pair_ne_of fmg_agree (by decide) (by decide))]
        exact checkboxStep_hit_yes _ hfind fmg_own (by decide)
      · rw [renderedFieldMap_eq, setField_ne _ _ _ (by decide), processCheckboxFields_eq,
          checkboxStep_q_ne (pair_ne_of fmg_agree (by decide) (by decide))]
        exact checkboxStep_hit_no _ hfind fmg_own
    · rw [fmg_agree] at hmap
      injection hmap with h; injection h with h1 h2; subst h1; subst h2
      constructor
      · rw [renderedFieldMap_eq, setField_ne _ _ _ (by decide), processCheckboxFields_eq]
        exact checkboxStep_hit_yes _ hfind fmg_agree (by decide)
      · rw [renderedFieldMap_eq, setField_ne _ _ _ (by decide), processCheckboxFields_eq]
        exact checkboxStep_hit_no _ hfind fmg_agree

/-- Concrete instance discharging the hypotheses of `c1_checkbox_pairing`:
input value "OWN" on `ownOrRent` checks the Own box and clears Rent. -/
theorem c1_checkbox_pairing_witness :
    renderedFieldMap [("ownOrRent", Value.str "OWN")] "2026-10-12" "Checkbox_11"
        = some (Value.str "Yes")
      ∧ renderedFieldMap [("ownOrRent", Value.str "OWN")] "2026-10-12" "Checkbox_12"
        = some (Value.str "Off") := by
  have h := c1_checkbox_pairing [("ownOrRent", Value.str "OWN")] "2026-10-12" "ownOrRent"
    (Value.str "OWN") "Checkbox_11" "Checkbox_12" (by decide) (by decide) (by decide)
  exact ⟨h.2.1.trans (by decide), h.2.2.trans (by decide)⟩

lemma dictFindV_of_mem_nodup {fields : List (String × Value)} {name : String} {v : Value}
    (hnd : (fields.map Prod.fst).Nodup) (hmem : (name, v) ∈ fields) :
    dictFindV fields name = some v := by
  induction fields with
  | nil => cases hmem
  | cons kv rest ih =>
    rw [List.map_cons, List.nodup_cons] at hnd
    rcases List.mem_cons.mp hmem with heq | hmem'
    · subst heq
      unfold dictFindV
      rw [List.find?_cons_of_pos _ (by simp)]
      rfl
    · have hne : kv.1 ≠ name := by
        intro h
        apply hnd.1
        rw [h]
        exact List.mem_map_of_mem Prod.fst hmem'
      unfold dictFindV
      rw [List.find?_cons_of_neg _ (by simp [hne])]
      exact ih hnd.2 hmem'

/-- The per-field truncation cap of the text pass: 30 for businessEmail,
35 for businessType, 40 otherwise. -/
def fieldCap (name : String) : Nat :=
  if name = "businessEmail" then 30 else if name = "businessType" then 35 else 40

lemma pyTake_of_le {s : String} {n : Nat} (h : s.data.length ≤ n) : pyTake s n = s := by
  unfold pyTake
  rw [List.take_of_length_le h]

lemma truncate_str (name : String) (s : String) :
    truncateForField name (Value.str s) = Value.str (pyTake s (fieldCap name)) := by
  by_cases he : name = "businessEmail"
  · subst he
    rw [show fieldCap "businessEmail" = 30 from by decide]
    unfold truncateForField
    simp only [pyStr]
    by_cases hl : s.data.length > 30
    · rw [if_pos ⟨trivial, hl⟩]
    · rw [if_neg (fun hc => hl hc.2), if_neg (fun hc => absurd hc.1 (by decide))]
      show (if s.data.length > 40 then Value.str (pyTake s 40) else Value.str s)
          = Value.str (pyTake s 30)
      rw [if_neg (by omega : ¬ s.data.length > 40), pyTake_of_le (by omega)]
  · by_cases ht : name = "businessType"
    · subst ht
      rw [show fieldCap "businessType" = 35 from by decide]
      unfold truncateForField
      simp only [pyStr]
      rw [if_neg (fun hc => absurd hc.1 (by decide))]
      by_cases hl : s.data.length > 35
      · rw [if_pos ⟨trivial, hl⟩]
      · rw [if_neg (fun hc => hl hc.2)]
        show (if s.data.length > 40 then Value.str (pyTake s 40) else Value.str s)
            = Value.str (pyTake s 35)
        rw [if_neg (by omega : ¬ s.data.length > 40), pyTake_of_le (by omega)]
    · rw [show fieldCap name = 40 from by unfold fieldCap; rw [if_neg he, if_neg ht]]
      unfold truncateForField
      simp only [pyStr]
      rw [if_neg (fun hc => he hc.1), if_neg (fun hc => ht hc.1)]
      show (if s.data.length > 40 then Value.str (pyTake s 40) else Value.str s)
          = Value.str (pyTake s 40)
      by_cases hl : s.data.length > 40
      · rw [if_pos hl]
      · rw [if_neg hl, pyTake_of_le (by omega)]

lemma truncate_nonstr (name : String) (v : Value)
    (hstr : ∀ s, v ≠ Value.str s)
    (he : name = "businessEmail" → (pyStr v).data.length ≤ 30)
    (hty : name = "businessType" → (pyStr v).data.length ≤ 35) :
    truncateForField name v = v := by
  unfold truncateForField
  rw [if_neg (fun hc => by have := he hc.1; omega),
      if_neg (fun hc => by have := hty hc.1; omega)]
  cases v with
  | str s => exact absurd rfl (hstr s)
  | bool b => rfl
  | int i => rfl

lemma signature_date_mem :
    ("signatureDate", MapTarget.single "Text_39") ∈ FIELD_MAPPING := by decide

/-- The final value of a mapped, non-checkbox, non-signatureDate text
field in the rendered map: the truncated input value. -/
lemma renderedFieldMap_text_found (fields : List (String × Value))
    (today name tgt : String) (v : Value)
    (hnd : (fields.map Prod.fst).Nodup)
    (hmem : (name, v) ∈ fields)
    (ht : textTarget name = some tgt)
    (hnsd : name ≠ "signatureDate") :
    renderedFieldMap fields today tgt = some (truncateForField name v) := by
  have hmem_fm : (name, MapTarget.single tgt) ∈ FIELD_MAPPING := textTarget_mem ht
  have hne39 : tgt ≠ "Text_39" := by
    intro h
    subst h
    exact hnsd (mapped_name_unique hmem_fm signature_date_mem)
  have hnotcb : tgt ∉ CHECKBOX_TARGETS := single_target_not_checkbox hmem_fm
  rw [renderedFieldMap_eq, setField_ne _ _ _ hne39, processCheckboxFields_q_ne _ _ hnotcb,
    processTextFields_q_found fields _ tgt name v hnd hmem ht
      (fun n h => mapped_name_unique (textTarget_mem h) hmem_fm)]

/-- C6: the signature-date template field Text_39 always ends up holding
the resolved signature date (input value if supplied, otherwise the
current date), untouched by the truncation of the text pass. -/
theorem c6_signature_date_final (fields : List (String × Value)) (today : String) :
    renderedFieldMap fields today "Text_39" = some (resolveSignatureDate fields today) := by
  rw [renderedFieldMap_eq, setField_self]

lemma textTarget_of_unmapped {name : String} (h : fieldMappingGet name = none) :
    textTarget name = none := by
  unfold textTarget
  split
  · rfl
  · rw [h]

lemma processTextFields_filter_skip (fields : List (String × Value)) (d : FormData)
    (name : String) (htt : textTarget name = none) :
    processTextFields (fields.filter (fun kv => kv.1 != name)) d
      = processTextFields fields d := by
  induction fields generalizing d with
  | nil => rfl
  | cons kv rest ih =>
    by_cases hk : kv.1 = name
    · rw [List.filter_cons_of_neg (by simp [hk]), processTextFields_cons,
        textFieldStep_skip d kv.1 kv.2 (by rw [hk]; exact htt)]
      exact ih d
    · rw [List.filter_cons_of_pos (by simp [hk]), processTextFields_cons,
        processTextFields_cons]
      exact ih _

lemma dictFindV_filter_ne (fields : List (String × Value)) (name k : String)
    (hk : k ≠ name) :
    dictFindV (fields.filter (fun kv => kv.1 != name)) k = dictFindV fields k := by
  induction fields with
  | nil => rfl
  | cons kv rest ih =>
    by_cases hkv : kv.1 = name
    · rw [List.filter_cons_of_neg (by simp [hkv])]
      unfold dictFindV
      rw [List.find?_cons_of_neg _ (by simp [hkv]; exact fun h => hk h.symm)]
      exact ih
    · rw [List.filter_cons_of_pos (by simp [hkv])]
      by_cases hq : kv.1 = k
      · unfold dictFindV
        rw [List.find?_cons_of_pos _ (by simp [hq]), List.find?_cons_of_pos _ (by simp [hq])]
      · unfold dictFindV
        rw [List.find?_cons_of_neg _ (by simp [hq]), List.find?_cons_of_neg _ (by simp [hq])]
        exact ih

lemma foldl_checkboxStep_congr (l : List String) (fields fields' : List (String × Value))
    (h : ∀ cb ∈ l, dictFindV fields' cb = dictFindV fields cb) :
    ∀ d : FormData, List.foldl (checkboxStep fields') d l = List.foldl (checkboxStep fields) d l := by
  induction l with
  | nil => intro d; rfl
  | cons cb rest ih =>
    intro d
    rw [List.foldl_cons, List.foldl_cons,
      show checkboxStep fields' d cb = checkboxStep fields d cb from by
        unfold checkboxStep; rw [h cb (List.mem_cons_self _ _)]]
    exact ih (fun c hc => h c (List.mem_cons_of_mem _ hc)) _

/-- C2 counterexample: a 41-character `signatureDate` input is NOT
truncated to 40 characters in the final rendered map — the text-pass
truncation of its target Text_39 is overwritten by the untruncated
resolved signature date. -/
theorem c2_counterexample :
    renderedFieldMap
        [("signatureDate", Value.str "AAAAAAAAAAAAAAAAAAAAAAAAAAAAAAAAAAAAAAAAA")]
        "2026-10-12" "Text_39"
      = some (Value.str "AAAAAAAAAAAAAAAAAAAAAAAAAAAAAAAAAAAAAAAAA")
    ∧ ("AAAAAAAAAAAAAAAAAAAAAAAAAAAAAAAAAAAAAAAAA" : String).data.length = 41 := by
  exact ⟨by decide, by decide⟩

/-- C2 (amended): for every input field that is neither a checkbox, nor a
signature-metadata key, nor `signatureDate` itself: a mapped field's
value lands under its template name truncated to the applicable cap
(30 for businessEmail, 35 for businessType, 40 otherwise; string values
at or under the cap pass unchanged), and an unmapped field is silently
dropped — removing it from the input leaves the rendered map unchanged.
(`signatureDate` is excluded because its truncated write is overwritten
with the untruncated resolved date, as proved for C6.) -/
theorem c2_amended_truncation (fields : List (String × Value)) (today name tgt : String)
    (v : Value)
    (hnd : (fields.map Prod.fst).Nodup)
    (hskip : ¬(name = "signatureImageBase64" ∨ name = "signatureDataHash"
        ∨ name ∈ CHECKBOX_FIELDS)) :
    (textTarget name = some tgt → (name, v) ∈ fields → name ≠ "signatureDate" →
        renderedFieldMap fields today tgt = some (truncateForField name v)
        ∧ ∀ s, v = Value.str s →
            renderedFieldMap fields today tgt = some (Value.str (pyTake s (fieldCap name)))
            ∧ (s.data.length ≤ fieldCap name →
                renderedFieldMap fields today tgt = some (Value.str s)))
    ∧ (fieldMappingGet name = none →
        renderedFieldMap fields today
          = renderedFieldMap (fields.filter (fun kv => kv.1 != name)) today) := by
  constructor
  · intro ht hmem hnsd
    have h1 := renderedFieldMap_text_found fields today name tgt v hnd hmem ht hnsd
    refine ⟨h1, ?_⟩
    intro s hs
    subst hs
    rw [truncate_str] at h1
    exact ⟨h1, fun hle => by rw [h1, pyTake_of_le hle]⟩
  · intro hnone
    have htt : textTarget name = none := textTarget_of_unmapped hnone
    have hsd_ne : "signatureDate" ≠ name := by
      intro h
      rw [← h] at hnone
      rw [fmg_of_mem signature_date_mem] at hnone
      cases hnone
    have hcb_ne : ∀ cb ∈ CHECKBOX_FIELDS, cb ≠ name := by
      intro cb hc h
      exact hskip (Or.inr (Or.inr (h ▸ hc)))
    rw [renderedFieldMap_eq, renderedFieldMap_eq,
      processTextFields_filter_skip fields emptyFormData name htt,
      show processCheckboxFields (fields.filter (fun kv => kv.1 != name))
            (processTextFields fields emptyFormData)
          = processCheckboxFields fields (processTextFields fields emptyFormData) from
        foldl_checkboxStep_congr CHECKBOX_FIELDS fields _
          (fun cb hc => dictFindV_filter_ne fields name cb (hcb_ne cb hc)) _,
      show resolveSignatureDate (fields.filter (fun kv => kv.1 != name)) today
          = resolveSignatureDate fields today from by
        unfold resolveSignatureDate dictGetD
        rw [dictFindV_filter_ne fields name _ hsd_ne]]

/-- Witness for `c2_amended_truncation`: a short mapped value passes
through unchanged. -/
theorem c2_amended_truncation_witness :
    renderedFieldMap [("city", Value.str "Springfield")] "2026-10-12" "Text_4"
      = some (Value.str "Springfield") := by
  have h := (c2_amended_truncation [("city", Value.str "Springfield")] "2026-10-12"
    "city" "Text_4" (Value.str "Springfield") (by decide) (by decide)).1
    (by decide) (by decide) (by decide)
  exact (h.2 "Springfield" rfl).2 (by decide)

/-- C3 counterexample: `businessEmail` given a 31-digit *integer* is
stringified and truncated to 30 characters — the value's type is not
preserved. -/
theorem c3_counterexample :
    renderedFieldMap [("businessEmail", Value.int 1000000000000000000000000000000)]
        "2026-10-12" "Text_9"
      = some (Value.str "100000000000000000000000000000")
    ∧ ∀ i : Int,
        some (Value.str "100000000000000000000000000000") ≠ some (Value.int i) := by
  refine ⟨by decide, ?_⟩
  intro i hcon
  injection hcon with h
  cases h

/-- C3 (amended): a mapped non-checkbox field whose value is not a
string is written unchanged, with its type preserved — except through
the `businessEmail`/`businessType` branches, which stringify any value
whose decimal form exceeds their caps; below those caps (and for every
other field name) non-string values pass through untouched. -/
theorem c3_amended_type_preserved (fields : List (String × Value))
    (today name tgt : String) (v : Value)
    (hnd : (fields.map Prod.fst).Nodup)
    (hmem : (name, v) ∈ fields)
    (ht : textTarget name = some tgt)
    (hstr : ∀ s, v ≠ Value.str s)
    (he : name = "businessEmail" → (pyStr v).data.length ≤ 30)
    (hty : name = "businessType" → (pyStr v).data.length ≤ 35) :
    renderedFieldMap fields today tgt = some v := by
  by_cases hnsd : name = "signatureDate"
  · subst hnsd
    have htgt : tgt = "Text_39" := by
      have h1 := textTarget_mem ht
      have h2 := mapped_target_unique h1 signature_date_mem
      injection h2
    subst htgt
    rw [renderedFieldMap_eq, setField_self]
    unfold resolveSignatureDate dictGetD
    rw [dictFindV_of_mem_nodup hnd hmem]
    rfl
  · rw [renderedFieldMap_text_found fields today name tgt v hnd hmem ht hnsd,
      truncate_nonstr name v hstr he hty]

/-- Witness for `c3_amended_type_preserved`: a boolean value on a plain
text field passes through with its type intact. -/
theorem c3_amended_type_preserved_witness :
    renderedFieldMap [("state", Value.bool true)] "2026-10-12" "Text_5"
      = some (Value.bool true) :=
  c3_amended_type_preserved [("state", Value.bool true)] "2026-10-12" "state" "Text_5"
    (Value.bool true) (by decide) (by decide) (by decide)
    (fun s => by simp) (by decide) (by decide)

/-- C10: the Text_41 annotation is produced exactly when one of the
resolved signature date / hash is truthy; when `annotationText` is
skipped both keys were explicitly present with falsy values (the
defaults — current date, "N/A" — are truthy); and an absent hash key
always yields a text ending in "Hash: N/A". -/
theorem c10_annotation_field (fields : List (String × Value)) (today : String)
    (htoday : today ≠ "") :
    ((annotationText (resolveSignatureDate fields today) (resolveSignatureHash fields)).isSome
        = true
      ↔ (pyTruthy (resolveSignatureDate fields today) = true
          ∨ pyTruthy (resolveSignatureHash fields) = true))
    ∧ (annotationText (resolveSignatureDate fields today) (resolveSignatureHash fields) = none →
        ∃ vd vh, dictFindV fields "signatureDate" = some vd ∧ pyTruthy vd = false
          ∧ dictFindV fields "signatureDataHash" = some vh ∧ pyTruthy vh = false)
    ∧ (dictFindV fields "signatureDataHash" = none →
        ∃ t pre,
          annotationText (resolveSignatureDate fields today) (resolveSignatureHash fields)
              = some t
            ∧ t = pre ++ "Hash: N/A") := by
  refine ⟨?_, ?_, ?_⟩
  · constructor
    · intro hs
      by_contra hcon
      push_neg at hcon
      obtain ⟨h1, h2⟩ := hcon
      simp only [Bool.not_eq_true] at h1 h2
      unfold annotationText at hs
      rw [if_neg (by rw [h1, h2]; simp)] at hs
      cases hs
    · intro hor
      unfold annotationText
      rw [if_pos (by rcases hor with h | h <;> rw [h] <;> simp)]
      rfl
  · intro hnone
    unfold annotationText at hnone
    by_cases hc : (pyTruthy (resolveSignatureDate fields today)
        || pyTruthy (resolveSignatureHash fields)) = true
    · rw [if_pos hc] at hnone
      cases hnone
    · have hcc := hc
      simp only [Bool.or_eq_true, not_or, Bool.not_eq_true] at hcc
      obtain ⟨hd, hh⟩ := hcc
      cases hfd : dictFindV fields "signatureDate" with
      | none =>
        exfalso
        have : resolveSignatureDate fields today = Value.str today := by
          unfold resolveSignatureDate dictGetD
          rw [hfd]
          rfl
        rw [this] at hd
        simp [pyTruthy] at hd
        exact htoday hd
      | some vd =>
        cases hfh : dictFindV fields "signatureDataHash" with
        | none =>
          exfalso
          have : resolveSignatureHash fields = Value.str "N/A" := by
            unfold resolveSignatureHash dictGetD
            rw [hfh]
            rfl
          rw [this] at hh
          cases hh
        | some vh =>
          refine ⟨vd, vh, rfl, ?_, rfl, ?_⟩
          · have : resolveSignatureDate fields today = vd := by
              unfold resolveSignatureDate dictGetD
              rw [hfd]
              rfl
            rw [← this]
            exact hd
          · have : resolveSignatureHash fields = vh := by
              unfold resolveSignatureHash dictGetD
              rw [hfh]
              rfl
            rw [← this]
            exact hh
  · intro hh
    have hres : resolveSignatureHash fields = Value.str "N/A" := by
      unfold resolveSignatureHash dictGetD
      rw [hh]
      rfl
    unfold annotationText
    rw [hres, show pyTruthy (Value.str "N/A") = true from rfl, Bool.or_true, if_pos rfl]
    unfold withHashClause
    rw [show pyTruthy (Value.str "N/A") = true from rfl, if_pos rfl]
    exact ⟨_, _, rfl, by rw [show ("Hash: " ++ pyStr (Value.str "N/A")) = "Hash: N/A" from rfl]⟩

/-- Witness for `c10_annotation_field`: with an empty field map both
defaults apply and the annotation ends in "Hash: N/A". -/
theorem c10_annotation_field_witness :
    ∃ t pre,
      annotationText (resolveSignatureDate [] "2026-10-12") (resolveSignatureHash [])
          = some t
        ∧ t = pre ++ "Hash: N/A" :=
  (c10_annotation_field [] "2026-10-12" (by decide)).2.2 (by decide)

/-! ### The signature compositor (`add_signature_to_pdf`) -/

/-- Dict `SIGNATURE_POSITION` (src/main.py lines 42-47); coordinates over
exact rationals, page index an integer. -/
def SIGNATURE_POSITION_x : ℚ := 50

def SIGNATURE_POSITION_y : ℚ := 50

def SIGNATURE_POSITION_width : ℚ := 350

def SIGNATURE_POSITION_page : Int := 0

/-- The overlay height computation of `add_signature_to_pdf` (lines
150-158): `aspect = img_height / img_width`;
`height = width * aspect * 0.25`.  The source computes in floating
point; the embedding is over exact rationals, where `0.25 = 25/100`
is exact. -/
def overlayHeight (imgWidth imgHeight : ℚ) : ℚ :=
  SIGNATURE_POSITION_width * (imgHeight / imgWidth) * (25 / 100)

/-- The page-assembly logic of `add_signature_to_pdf` (lines 172-185):
when the configured page index is in range, the merged page goes first
followed by all remaining pages in order; otherwise every page is passed
through unchanged.  `mergeOverlay` stands for `page.merge_page(overlay)`
of the external compositing engine. -/
def addSignatureToPdfPages {α : Type} (mergeOverlay : α → α) (pages : List α)
    (pageIdx : Int) : List α :=
  if h : 0 ≤ pageIdx ∧ pageIdx < (pages.length : Int) then
    mergeOverlay (pages.get ⟨pageIdx.toNat, by omega⟩) ::
      ((pages.enum.filter (fun p => p.1 != pageIdx.toNat)).map Prod.snd)
  else
    pages

/-- C4: merging the signature overlay with an out-of-range target page
index (negative, or at least the page count) returns the document
unchanged — same page count, same order, every page untouched, and no
error. -/
theorem c4_out_of_range_merge {α : Type} (mergeOverlay : α → α) (pages : List α)
    (pageIdx : Int) (h : ¬(0 ≤ pageIdx ∧ pageIdx < (pages.length : Int))) :
    addSignatureToPdfPages mergeOverlay pages pageIdx = pages := by
  unfold addSignatureToPdfPages
  rw [dif_neg h]

/-- Witness for `c4_out_of_range_merge`: index -1 on a two-page document. -/
theorem c4_out_of_range_merge_witness :
    addSignatureToPdfPages (fun n => n + 1) [10, 20] (-1) = [10, 20] :=
  c4_out_of_range_merge (fun n => n + 1) [10, 20] (-1) (by decide)

/-- C5: for a raster of width W > 0 and height H the rendered overlay
height is `350 * (H/W) * 0.25`, and it depends only on the aspect ratio
H/W, not on the absolute resolution. -/
theorem c5_overlay_height (w h : ℚ) (hw : 0 < w) :
    overlayHeight w h = 350 * (h / w) * (1 / 4)
    ∧ ∀ w' h' : ℚ, 0 < w' → h' / w' = h / w → overlayHeight w' h' = overlayHeight w h := by
  constructor
  · unfold overlayHeight SIGNATURE_POSITION_width
    norm_num
  · intro w' h' hw' hr
    unfold overlayHeight
    rw [hr]

/-- Witness for `c5_overlay_height` at the concrete raster 2 x 1. -/
theorem c5_overlay_height_witness :
    overlayHeight 2 1 = 350 * ((1 : ℚ) / 2) * (1 / 4) :=
  (c5_overlay_height 2 1 (by norm_num)).1

/-! ### The HTTP handler (`fill_pdf_form`): statuses and scratch files -/

/-- A parsed JSON value, as produced by `request.get_json(silent=True)`. -/
inductive Json where
  | null : Json
  | bool : Bool → Json
  | num : Int → Json
  | str : String → Json
  | arr : List Json → Json
  | obj : List (String × Json) → Json

/-- Lookup in a JSON object (Python dict). -/
def dictFindJ (entries : List (String × Json)) (k : String) : Option Json :=
  (entries.find? (fun kv => kv.1 = k)).map Prod.snd

/-- Embedding of `d.get(k, dflt)` on a JSON object. -/
def jsonGetD (entries : List (String × Json)) (k : String) (dflt : Json) : Json :=
  (dictFindJ entries k).getD dflt

/-- Whether a JSON element equals the string `key` (the only JSON shapes
comparing equal to a Python string are strings). -/
def jsonIsStrEq (key : String) : Json → Bool
  | Json.str s => s == key
  | _ => false

/-- Whether `pat` occurs as a contiguous sublist of the second argument
(Python substring membership). -/
def listHasSub (pat : List Char) : List Char → Bool
  | [] => pat.isEmpty
  | c :: cs => pat.isPrefixOf (c :: cs) || listHasSub pat cs

/-- Embedding of Python `sub in s` on strings. -/
def strContainsSub (s sub : String) : Bool :=
  listHasSub sub.data s.data

/-- Embedding of Python `key in data` (line 214): key lookup on dicts,
element equality on lists, substring test on strings; any other operand
raises `TypeError` (modelled as `Except.error`), which the handler's
catch-all turns into a 500. -/
def pyIn (key : String) : Json → Except Unit Bool
  | Json.obj entries => Except.ok (dictFindJ entries key).isSome
  | Json.arr elems => Except.ok (elems.any (jsonIsStrEq key))
  | Json.str s => Except.ok (strContainsSub s key)
  | _ => Except.error ()

/-- Embedding of Python truthiness on JSON values. -/
def jsonTruthy : Json → Bool
  | Json.null => false
  | Json.bool b => b
  | Json.num n => !(n == 0)
  | Json.str s => !(s == "")
  | Json.arr elems => !elems.isEmpty
  | Json.obj entries => !entries.isEmpty

/-- Embedding of Python `s.startswith(pre)`. -/
def pyStartsWith (s pre : String) : Bool :=
  pre.data.isPrefixOf s.data

/-- Splitting a character list at every comma (accumulator holds the
current piece reversed). -/
def splitCommaAux : List Char → List Char → List (List Char)
  | [], acc => [acc.reverse]
  | c :: cs, acc =>
    if c = ',' then acc.reverse :: splitCommaAux cs [] else splitCommaAux cs (c :: acc)

/-- Embedding of Python `s.split(',')`. -/
def pySplitComma (s : String) : List String :=
  (splitCommaAux s.data []).map String.mk

/-- Base64 alphabet characters. -/
def isB64Char (c : Char) : Bool :=
  (('A' ≤ c) && (c ≤ 'Z')) || (('a' ≤ c) && (c ≤ 'z')) || (('0' ≤ c) && (c ≤ '9'))
    || (c == '+') || (c == '/')

/-- Success condition of the external `base64.b64decode` in its default
lenient mode: characters outside the alphabet are discarded, and the
remaining data-character count must complete to a multiple of four,
using '=' padding for a 2- or 3-character final group.  A count that is
1 more than a multiple of 4, or missing padding, raises
`binascii.Error`. -/
def b64DecodeOk (s : String) : Bool :=
  (((s.data.filter isB64Char).length % 4 == 0)
    || (((s.data.filter isB64Char).length % 4 == 2)
        && decide (2 ≤ (s.data.filter (fun c => c == '=')).length))
    || (((s.data.filter isB64Char).length % 4 == 3)
        && decide (1 ≤ (s.data.filter (fun c => c == '=')).length)))

/-- Outcome of the request-shape validation (src/main.py lines 202-215). -/
inductive ValidationOutcome where
  | methodNotAllowed
  | invalidListShape
  | missingBodyKey
  | typeErrorCaught
  | proceed : Json → ValidationOutcome

/-- Lines 202-215: reject non-POST (405); reject a body that is not a
non-empty list (400); on the first element run `'body' not in data` —
a `False` membership is a 400, a `TypeError` (non-container first
element) propagates to the catch-all (500). -/
def validateRequest (method : String) (requestJson : Option Json) : ValidationOutcome :=
  if method ≠ "POST" then ValidationOutcome.methodNotAllowed
  else
    match requestJson with
    | some (Json.arr (d :: _)) =>
      match pyIn "body" d with
      | Except.ok true => ValidationOutcome.proceed d
      | Except.ok false => ValidationOutcome.missingBodyKey
      | Except.error _ => ValidationOutcome.typeErrorCaught
    | _ => ValidationOutcome.invalidListShape

/-- Which of the three scratch files (`/tmp/signature.png`, the
intermediate filled PDF, the final PDF) exist at the moment the handler
returns. -/
structure FileState where
  sigFile : Bool
  filledFile : Bool
  outputFile : Bool
deriving DecidableEq

/-- No scratch file exists. -/
def noScratchFiles : FileState := ⟨false, false, false⟩

/-- The environment of one request: the state of the external
collaborators (template file, fill engine, compositor, filesystem) and
the current date.  A `false`/failure component models the corresponding
library call raising an exception. -/
structure Env where
  templateExists : Bool
  fieldsReadOk : Bool
  availableFields : List String
  today : String
  fillOk : Bool
  annotateOk : Bool
  signOk : Bool
  readOk : Bool

/-- Lines 332-363: `add_signature_to_pdf` (raising → line 342's return,
with the signature and intermediate files left behind), then the final
read (raising → lines 358-363, which clean up), then the success return
(lines 349-357, cleaning up all three files). -/
def signAndReturn (env : Env) : Nat × FileState :=
  if env.signOk then
    if env.readOk then (200, noScratchFiles) else (500, noScratchFiles)
  else (500, ⟨true, true, false⟩)

/-- Lines 305-330: the first `write_fillable_pdf` (raising → line 342's
return with the signature file leaked), then the conditional Text_41
write pass (raising likewise leaks the signature and intermediate
files), then hand-off to the compositor. -/
def fillAndSign (formEntries : List (String × Json)) (env : Env) : Nat × FileState :=
  if env.fillOk then
    if jsonTruthy (jsonGetD formEntries "signatureDate" (Json.str env.today))
        || jsonTruthy (jsonGetD formEntries "signatureDataHash" (Json.str "N/A")) then
      if env.annotateOk then signAndReturn env else (500, ⟨true, true, false⟩)
    else signAndReturn env
  else (500, ⟨true, false, false⟩)

/-- Lines 224-252: the signature prefix check (400), the template
existence and form-field checks (500s), then the base64 decode of
`signature_base64.split(',')[1]` — decode failure returns 500 (line
252) before any file is written; on success the signature image is
written to scratch.  (The split index 1 exists because the checked
prefix contains a comma.) -/
def processSignature (signatureBase64 : String) (formEntries : List (String × Json))
    (env : Env) : Nat × FileState :=
  if pyStartsWith signatureBase64 "data:image/png;base64," then
    if env.templateExists then
      if env.fieldsReadOk then
        if env.availableFields.isEmpty then (500, noScratchFiles)
        else
          if b64DecodeOk ((pySplitComma signatureBase64).getD 1 "") then
            fillAndSign formEntries env
          else (500, noScratchFiles)
      else (500, noScratchFiles)
    else (500, noScratchFiles)
  else (400, noScratchFiles)

/-- Line 224: `.startswith` on a non-string signature value raises
`AttributeError`, surfaced as 500 by the catch-all. -/
def handleSigValue (sigVal : Json) (formEntries : List (String × Json)) (env : Env) :
    Nat × FileState :=
  match sigVal with
  | Json.str s => processSignature s formEntries env
  | _ => (500, noScratchFiles)

/-- Line 218-219: `form_fields = data.get('body', {})` followed by
`.get` calls on it — a non-dict `form_fields` raises (500). -/
def handleBody (body : Json) (env : Env) : Nat × FileState :=
  match body with
  | Json.obj formEntries =>
    handleSigValue (jsonGetD formEntries "signatureImageBase64" (Json.str "")) formEntries env
  | _ => (500, noScratchFiles)

/-- The call `data.get('body', {})` requires `data` to be a dict; a first element
that passed the membership test without being a dict (string or list)
raises at `.get` (500). -/
def handleData (data : Json) (env : Env) : Nat × FileState :=
  match data with
  | Json.obj dataEntries => handleBody (jsonGetD dataEntries "body" (Json.obj [])) env
  | _ => (500, noScratchFiles)

/-- The HTTP handler `fill_pdf_form`: status code of the response paired
with the scratch files still existing when it returns. -/
def handleRequest (method : String) (requestJson : Option Json) (env : Env) :
    Nat × FileState :=
  match validateRequest method requestJson with
  | ValidationOutcome.methodNotAllowed => (405, noScratchFiles)
  | ValidationOutcome.invalidListShape => (400, noScratchFiles)
  | ValidationOutcome.missingBodyKey => (400, noScratchFiles)
  | ValidationOutcome.typeErrorCaught => (500, noScratchFiles)
  | ValidationOutcome.proceed data => handleData data env

/-- A fully healthy environment for concrete runs. -/
def env0 : Env := ⟨true, true, ["Text_1"], "2026-10-12", true, true, true, true⟩

example :
    handleRequest "POST"
      (some (Json.arr [Json.obj [("body",
        Json.obj [("signatureImageBase64", Json.str "data:image/png;base64,")])]]))
      env0 = (200, noScratchFiles) := by decide

example :
    handleRequest "GET" (some (Json.arr [Json.obj [("body", Json.obj [])]])) env0
      = (405, noScratchFiles) := by decide

/-- First elements of the request list that support no membership test. -/
def isNonemptyJsonArr : Option Json → Bool
  | some (Json.arr (_ :: _)) => true
  | _ => false

lemma validateRequest_obj (entries : List (String × Json)) (rest : List Json) :
    validateRequest "POST" (some (Json.arr (Json.obj entries :: rest)))
      = if (dictFindJ entries "body").isSome then
          ValidationOutcome.proceed (Json.obj entries)
        else ValidationOutcome.missingBodyKey := by
  show (match (Except.ok (dictFindJ entries "body").isSome : Except Unit Bool) with
      | Except.ok true => ValidationOutcome.proceed (Json.obj entries)
      | Except.ok false => ValidationOutcome.missingBodyKey
      | Except.error _ => ValidationOutcome.typeErrorCaught) = _
  cases h : (dictFindJ entries "body").isSome <;> rfl

lemma validateRequest_str (s : String) (rest : List Json) :
    validateRequest "POST" (some (Json.arr (Json.str s :: rest)))
      = if strContainsSub s "body" then ValidationOutcome.proceed (Json.str s)
        else ValidationOutcome.missingBodyKey := by
  show (match (Except.ok (strContainsSub s "body") : Except Unit Bool) with
      | Except.ok true => ValidationOutcome.proceed (Json.str s)
      | Except.ok false => ValidationOutcome.missingBodyKey
      | Except.error _ => ValidationOutcome.typeErrorCaught) = _
  cases h : strContainsSub s "body" <;> rfl

lemma validateRequest_arrElem (elems rest : List Json) :
    validateRequest "POST" (some (Json.arr (Json.arr elems :: rest)))
      = if elems.any (jsonIsStrEq "body") then ValidationOutcome.proceed (Json.arr elems)
        else ValidationOutcome.missingBodyKey := by
  show (match (Except.ok (elems.any (jsonIsStrEq "body")) : Except Unit Bool) with
      | Except.ok true => ValidationOutcome.proceed (Json.arr elems)
      | Except.ok false => ValidationOutcome.missingBodyKey
      | Except.error _ => ValidationOutcome.typeErrorCaught) = _
  cases h : elems.any (jsonIsStrEq "body") <;> rfl

/-- C7 counterexample: a POST whose body is the list `[5]` has a first
element lacking the 'body' wrapper key, yet the handler answers 500
(the membership test `'body' in 5` raises and hits the catch-all), not
the 400 the claim asserts. -/
theorem c7_counterexample :
    (handleRequest "POST" (some (Json.arr [Json.num 5])) env0).1 = 500
      ∧ (500 : Nat) ≠ 400 :=
  ⟨rfl, by decide⟩

/-- C7 (amended): non-POST methods get 405; a body that is not a
non-empty list gets 400; a first element that is an object without the
'body' key — or a string not containing "body", or a list without a
"body" element — gets 400; but a first element supporting no membership
test (null, boolean, number) raises inside the handler and is surfaced
as 500 by the catch-all, not 400. -/
theorem c7_amended_validation :
    (∀ (method : String) (rj : Option Json) (env : Env),
        method ≠ "POST" → (handleRequest method rj env).1 = 405)
    ∧ (∀ (rj : Option Json) (env : Env),
        isNonemptyJsonArr rj = false → (handleRequest "POST" rj env).1 = 400)
    ∧ (∀ (entries : List (String × Json)) (rest : List Json) (env : Env),
        dictFindJ entries "body" = none →
        (handleRequest "POST" (some (Json.arr (Json.obj entries :: rest))) env).1 = 400)
    ∧ (∀ (d : Json) (rest : List Json) (env : Env),
        (d = Json.null ∨ (∃ b, d = Json.bool b) ∨ (∃ n, d = Json.num n)) →
        (handleRequest "POST" (some (Json.arr (d :: rest))) env).1 = 500)
    ∧ (∀ (s : String) (rest : List Json) (env : Env),
        strContainsSub s "body" = false →
        (handleRequest "POST" (some (Json.arr (Json.str s :: rest))) env).1 = 400)
    ∧ (∀ (elems rest : List Json) (env : Env),
        elems.all (fun j => !(jsonIsStrEq "body" j)) = true →
        (handleRequest "POST" (some (Json.arr (Json.arr elems :: rest))) env).1 = 400) := by
  refine ⟨?_, ?_, ?_, ?_, ?_, ?_⟩
  · intro method rj env h
    unfold handleRequest validateRequest
    rw [if_pos h]
  · intro rj env h
    unfold handleRequest validateRequest
    rw [if_neg (by simp)]
    cases rj with
    | none => rfl
    | some j =>
      cases j with
      | null => rfl
      | bool b => rfl
      | num n => rfl
      | str s => rfl
      | obj o => rfl
      | arr elems =>
        cases elems with
        | nil => rfl
        | cons d rest => exact absurd h (by simp [isNonemptyJsonArr])
  · intro entries rest env h
    unfold handleRequest
    rw [validateRequest_obj,
      show (dictFindJ entries "body").isSome = false from by rw [h]; rfl,
      if_neg Bool.false_ne_true]
  · intro d rest env h
    rcases h with h | ⟨b, h⟩ | ⟨n, h⟩ <;> subst h <;> rfl
  · intro s rest env h
    unfold handleRequest
    rw [validateRequest_str, h, if_neg Bool.false_ne_true]
  · intro elems rest env h
    have hany : elems.any (jsonIsStrEq "body") = false := by
      rw [List.any_eq_false]
      intro x hx
      have hx' := List.all_eq_true.mp h x hx
      simp only [Bool.not_eq_true'] at hx'
      simp [hx']
    unfold handleRequest
    rw [validateRequest_arrElem, hany, if_neg Bool.false_ne_true]

/-- Witness for `c7_amended_validation`: an object first element without
the 'body' key gets 400. -/
theorem c7_amended_validation_witness :
    (handleRequest "POST" (some (Json.arr [Json.obj [("x", Json.null)]])) env0).1 = 400 :=
  c7_amended_validation.2.2.1 [("x", Json.null)] [] env0 rfl

/-- C8 counterexample: the signature value "data:image/png;base64,A" has
the required prefix but its payload "A" fails base64 decoding (one data
character is 1 mod 4); the handler returns 500 ("Error processing
signature", line 252), not the 400 the claim asserts. -/
theorem c8_counterexample :
    (handleRequest "POST"
        (some (Json.arr [Json.obj [("body",
          Json.obj [("signatureImageBase64", Json.str "data:image/png;base64,A")])]]))
        env0).1 = 500
      ∧ (500 : Nat) ≠ 400 :=
  ⟨rfl, by decide⟩

/-- C8 (amended): for every signature value carrying the required
'data:image/png;base64,' prefix whose payload after the comma fails
base64 decoding, the request fails on the signature-processing path with
status 500 (not 400), before any scratch file is created. -/
theorem c8_amended_decode_failure (formEntries : List (String × Json)) (rest : List Json)
    (env : Env) (sig : String)
    (htempl : env.templateExists = true)
    (hread : env.fieldsReadOk = true)
    (hfe : env.availableFields.isEmpty = false)
    (hsig : dictFindJ formEntries "signatureImageBase64" = some (Json.str sig))
    (hpre : pyStartsWith sig "data:image/png;base64," = true)
    (hb64 : b64DecodeOk ((pySplitComma sig).getD 1 "") = false) :
    handleRequest "POST"
        (some (Json.arr (Json.obj [("body", Json.obj formEntries)] :: rest))) env
      = (500, noScratchFiles) := by
  have hstep : handleRequest "POST"
      (some (Json.arr (Json.obj [("body", Json.obj formEntries)] :: rest))) env
      = handleBody (Json.obj formEntries) env := rfl
  rw [hstep]
  show handleSigValue (jsonGetD formEntries "signatureImageBase64" (Json.str ""))
      formEntries env = (500, noScratchFiles)
  rw [show jsonGetD formEntries "signatureImageBase64" (Json.str "") = Json.str sig from by
    unfold jsonGetD
    rw [hsig]
    rfl]
  show processSignature sig formEntries env = (500, noScratchFiles)
  unfold processSignature
  rw [hpre, if_pos rfl, htempl, if_pos rfl, hread, if_pos rfl, hfe,
    if_neg Bool.false_ne_true, hb64, if_neg Bool.false_ne_true]

/-- Witness for `c8_amended_decode_failure` at the concrete payload "A". -/
theorem c8_amended_decode_failure_witness :
    handleRequest "POST"
        (some (Json.arr [Json.obj [("body",
          Json.obj [("signatureImageBase64", Json.str "data:image/png;base64,A")])]]))
        env0
      = (500, noScratchFiles) :=
  c8_amended_decode_failure
    [("signatureImageBase64", Json.str "data:image/png;base64,A")] [] env0
    "data:image/png;base64,A" rfl rfl rfl rfl rfl rfl

/-- C9: evaluating the handler at a failing input.  A valid POST request
(valid wrapper, valid signature prefix, empty-but-decodable payload) in
an environment where the form-fill engine raises returns 500 from line
342 while the scratch signature image it wrote still exists: the
claimed every-exit-path cleanup does not hold on this path. -/
theorem c9_fill_error_leaks_signature_file :
    handleRequest "POST"
        (some (Json.arr [Json.obj [("body",
          Json.obj [("signatureImageBase64", Json.str "data:image/png;base64,")])]]))
        ⟨true, true, ["Text_1"], "2026-10-12", false, true, true, true⟩
      = (500, ⟨true, false, false⟩) := by
  decide
